import Mathlib

/-!
Verification of the local sample-test execution pipeline of the
OJ-Productivity-Assistant extension.  The definitions below are a shallow
embedding of the TypeScript source (the `OJAssistantProvider` methods
`handleRunSampleTest`, `runSampleTest`, `runPythonSample`, `runJavaSample`,
`detectJavaEntryPoint`, `getJavaExecutables`, `runProcess` and
`normalizeProgramOutput`).  External effects (process spawning, the
filesystem, configuration and environment variables) are modelled by an
explicit environment record and an event trace.
-/

namespace OJ

/-- The JavaScript whitespace class: the characters matched by `\s` in a
regular expression, and the characters stripped by `String.prototype.trim`
and `trimEnd` (ECMAScript WhiteSpace ∪ LineTerminator). -/
def isJsWs (c : Char) : Bool :=
  c = ' ' || c = '\t' || c = '\n' || c = '\x0b' || c = '\x0c' || c = '\r' ||
  c.toNat = 0xA0 || c.toNat = 0x1680 ||
  (0x2000 ≤ c.toNat && c.toNat ≤ 0x200A) ||
  c.toNat = 0x2028 || c.toNat = 0x2029 || c.toNat = 0x202F ||
  c.toNat = 0x205F || c.toNat = 0x3000 || c.toNat = 0xFEFF

/-- ECMAScript LineTerminator characters (the positions after which a
multiline `^` anchor matches). -/
def isLineTerm (c : Char) : Bool :=
  c = '\n' || c = '\r' || c.toNat = 0x2028 || c.toNat = 0x2029

/-- The character class `[A-Za-z0-9_]` used by the entry-point regexes. -/
def isWordChar (c : Char) : Bool :=
  ('A' ≤ c && c ≤ 'Z') || ('a' ≤ c && c ≤ 'z') || ('0' ≤ c && c ≤ '9') || c = '_'

/-- The character class `[A-Za-z0-9_.]` of the package-name capture group. -/
def isPkgChar (c : Char) : Bool :=
  isWordChar c || c = '.'

/-- One left-to-right pass of `value.replace(/\r\n/g, '\n')`: each
non-overlapping CRLF pair becomes a single LF. -/
def replaceCRLF : List Char → List Char
  | [] => []
  | [c] => [c]
  | c1 :: c2 :: rest =>
    if c1 = '\r' && c2 = '\n' then '\n' :: replaceCRLF rest
    else c1 :: replaceCRLF (c2 :: rest)

/-- `value.replace(/\r/g, '\n')`: every remaining CR becomes LF. -/
def replaceCR (l : List Char) : List Char :=
  l.map fun c => if c = '\r' then '\n' else c

/-- The line-ending canonicalization part of `normalizeProgramOutput`
(the two `replace` calls, before `trimEnd`). -/
def lineNorm (l : List Char) : List Char :=
  replaceCR (replaceCRLF l)

/-- `String.prototype.trimEnd`: remove the maximal whitespace suffix. -/
def trimEndL (l : List Char) : List Char :=
  l.rdropWhile isJsWs

/-- `normalizeProgramOutput` (source line 570-572):
`value.replace(/\r\n/g, '\n').replace(/\r/g, '\n').trimEnd()`. -/
def normalizeProgramOutput (s : String) : String :=
  ⟨trimEndL (lineNorm s.data)⟩

/-- `String.prototype.trim`: strip the JS whitespace class from both ends. -/
def jsTrim (s : String) : String :=
  ⟨((s.data.dropWhile isJsWs).rdropWhile isJsWs)⟩

/-- `input.endsWith('\n')`. -/
def endsWithLF (s : String) : Bool :=
  match s.data.reverse with
  | c :: _ => c = '\n'
  | [] => false

/-- An interaction with the child process's standard-input channel. -/
inductive StdinAction where
  | write (s : String)
  | close
deriving DecidableEq, Repr

/-- The standard-input protocol of `runProcess` (source lines 562-566):
when `input` is non-empty, write it with a trailing newline appended if
none is present, then `end()`; when empty, `end()` immediately. -/
def runProcessStdinActions (input : String) : List StdinAction :=
  if input = "" then [StdinAction.close]
  else [StdinAction.write (if endsWithLF input then input else input ++ "\n"),
        StdinAction.close]

/-- Models Node's `path.dirname` (POSIX flavour): the path with its last
component and any trailing separators removed. -/
def dirname (p : String) : String :=
  match p.data with
  | [] => "."
  | c0 :: rest =>
    let r2 := ((rest.reverse).dropWhile (fun c => c = '/')).dropWhile (fun c => c ≠ '/')
    match r2 with
    | [] => if c0 = '/' then "/" else "."
    | _ :: t => if c0 = '/' && t.isEmpty then "//" else ⟨c0 :: t.reverse⟩

/-- Models Node's `path.join(home, 'bin', name)` on already-normalized
segments: concatenation with the platform separator. -/
def pathJoinBin (sep home name : String) : String :=
  home ++ sep ++ "bin" ++ sep ++ name

/-- The `ojAssistant` configuration section values consumed by the
pipeline (`config.get` returns `none` when a key is unset). -/
structure ToolchainConfig where
  pythonPath : Option String
  javaPath : Option String
  javacPath : Option String
deriving DecidableEq, Repr

/-- Ambient platform state read by `getJavaExecutables`:
`process.platform === 'win32'` and the two installation-root environment
variables. -/
structure Platform where
  isWin32 : Bool
  javaHome : Option String
  jdkHome : Option String
deriving DecidableEq, Repr

/-- The `fromHome` helper of `getJavaExecutables`:
`home ? path.join(home, 'bin', binary + suffix) : undefined`, where an
empty `home` string is falsy. -/
def fromHome (sep sfx : String) (home : Option String) (binary : String) : Option String :=
  match home with
  | some h => if h = "" then none else some (pathJoinBin sep h (binary ++ sfx))
  | none => none

/-- The `pickFirst` helper of `getJavaExecutables`: the first candidate
that is defined, non-empty, and non-blank (`candidate && candidate.trim()`),
else the empty string. -/
def pickFirst : List (Option String) → String
  | [] => ""
  | none :: rest => pickFirst rest
  | some s :: rest =>
    if s = "" then pickFirst rest
    else if jsTrim s = "" then pickFirst rest
    else s

/-- `getJavaExecutables` (source lines 495-529): resolve the runtime and
compiler executables from configuration, `JAVA_HOME`/`JDK_HOME`, and the
platform suffix, returning `(java, javac)`. -/
def getJavaExecutables (cfg : ToolchainConfig) (plat : Platform) : String × String :=
  let configuredJava := cfg.javaPath.map jsTrim
  let configuredJavac := cfg.javacPath.map jsTrim
  let sfx := if plat.isWin32 then ".exe" else ""
  let sep := if plat.isWin32 then "\\" else "/"
  let javaBinary :=
    let p := pickFirst [configuredJava,
      fromHome sep sfx plat.javaHome "java",
      fromHome sep sfx plat.jdkHome "java",
      if sfx ≠ "" then some ("java" ++ sfx) else none,
      some "java"]
    if p = "" then "java" else p
  let javacBinary :=
    let p := pickFirst [configuredJavac,
      fromHome sep sfx plat.javaHome "javac",
      fromHome sep sfx plat.jdkHome "javac",
      if sfx ≠ "" then some ("javac" ++ sfx) else none,
      some "javac"]
    if p = "" then "javac" else p
  (javaBinary, javacBinary)

/-- Match a literal string at the head of the input; return the rest. -/
def matchLit : List Char → List Char → Option (List Char)
  | [], l => some l
  | _ :: _, [] => none
  | a :: xs, c :: l => if c = a then matchLit xs l else none

/-- Match `\s+` (one or more JS whitespace characters, maximal run) at the
head of the input; return the rest.  Maximal consumption is exact here
because every continuation in the source regexes starts with a
non-whitespace character. -/
def wsPlus : List Char → Option (List Char)
  | [] => none
  | c :: rest => if isJsWs c then some (rest.dropWhile isJsWs) else none

/-- Match `public\s+class\s+([A-Za-z0-9_]+)` at the head of the input;
return the captured class name. -/
def publicClassAt (l : List Char) : Option (List Char) :=
  (matchLit "public".data l).bind fun r1 =>
  (wsPlus r1).bind fun r2 =>
  (matchLit "class".data r2).bind fun r3 =>
  (wsPlus r3).bind fun r4 =>
    let name := r4.takeWhile isWordChar
    if name.isEmpty then none else some name

/-- `content.match(/public\s+class\s+([A-Za-z0-9_]+)/)`: the capture of
the leftmost match, scanning positions left to right. -/
def findPublicClass : List Char → Option (List Char)
  | [] => none
  | c :: rest =>
    match publicClassAt (c :: rest) with
    | some name => some name
    | none => findPublicClass rest

/-- Match `public\s+static\s+void\s+main\s*\(` at the head of the input. -/
def mainMethodAt (l : List Char) : Option Unit :=
  (matchLit "public".data l).bind fun r1 =>
  (wsPlus r1).bind fun r2 =>
  (matchLit "static".data r2).bind fun r3 =>
  (wsPlus r3).bind fun r4 =>
  (matchLit "void".data r4).bind fun r5 =>
  (wsPlus r5).bind fun r6 =>
  (matchLit "main".data r6).bind fun r7 =>
    match r7.dropWhile isJsWs with
    | '(' :: _ => some ()
    | _ => none

/-- `/public\s+static\s+void\s+main\s*\(/.test(content)`. -/
def hasMainMethod : List Char → Bool
  | [] => false
  | c :: rest => (mainMethodAt (c :: rest)).isSome || hasMainMethod rest

/-- The class `[\s﻿​]` allowed before the `package` keyword. -/
def isPkgLead (c : Char) : Bool :=
  isJsWs c || c.toNat = 0x200B

/-- Match `[\s﻿​]*package\s+([A-Za-z0-9_.]+)\s*;` at a
line-start position; return the captured dotted package name. -/
def packageAt (l : List Char) : Option (List Char) :=
  let l1 := l.dropWhile isPkgLead
  (matchLit "package".data l1).bind fun r1 =>
  (wsPlus r1).bind fun r2 =>
    let name := r2.takeWhile isPkgChar
    if name.isEmpty then none
    else
      match (r2.dropWhile isPkgChar).dropWhile isJsWs with
      | ';' :: _ => some name
      | _ => none

/-- Scan for the leftmost match of the multiline-anchored package regex;
the Boolean argument records whether the current position is a line
start (index 0 or just after a LineTerminator). -/
def findPackageFrom : Bool → List Char → Option (List Char)
  | _, [] => none
  | atStart, c :: rest =>
    if atStart then
      match packageAt (c :: rest) with
      | some name => some name
      | none => findPackageFrom (isLineTerm c) rest
    else findPackageFrom (isLineTerm c) rest

/-- `content.match(/^[\s﻿​]*package\s+([A-Za-z0-9_.]+)\s*;/m)`. -/
def findPackage (l : List Char) : Option (List Char) :=
  findPackageFrom true l

/-- The entry point detected from Java source text. -/
structure EntryPoint where
  mainClass : String
  packageName : Option String
deriving DecidableEq, Repr

/-- Error message when no `public class` pattern is found. -/
def noPublicClassMsg : String := "无法识别 Java 主类，请确保存在 public class 定义"

/-- Error message when no `public static void main(` pattern is found. -/
def noMainMethodMsg : String := "未找到 public static void main(String[] args) 入口方法"

/-- `detectJavaEntryPoint` (source lines 478-493), as a pure function of
the file content that `fs.readFile` returned. -/
def detectJavaEntryPoint (content : String) : Except String EntryPoint :=
  let packageMatch := findPackage content.data
  match findPublicClass content.data with
  | none => Except.error noPublicClassMsg
  | some cls =>
    if hasMainMethod content.data then
      Except.ok ⟨⟨cls⟩, packageMatch.map (fun p => (⟨p⟩ : String))⟩
    else Except.error noMainMethodMsg

/-- One invocation of the Process Execution Engine: command, argument
vector, stdin text, working directory. -/
structure ProcCall where
  command : String
  args : List String
  input : String
  cwd : String
deriving DecidableEq, Repr

/-- What a completed child process reported: accumulated stdout and
stderr, and the exit code (`none` models a `null` code). -/
structure ProcResult where
  stdout : String
  stderr : String
  exitCode : Option Int
deriving DecidableEq, Repr

/-- The value a sample-test strategy resolves with. -/
structure SampleResult where
  stdout : String
  stderr : String
  exitCode : Option Int
  matched : Option Bool
deriving DecidableEq, Repr

/-- Externally observable effects of one pipeline invocation, in order. -/
inductive Event where
  | readFile (path : String)
  | mkdtemp (dir : String)
  | spawn (call : ProcCall)
  | rmAttempt (dir : String) (ok : Bool)
deriving DecidableEq, Repr

/-- The ambient world a pipeline invocation runs against: configuration,
platform, the source file's content, the name `mkdtemp` will mint, an
oracle giving each spawned process's outcome (`Except.error` models a
spawn `error` event, i.e. a launch failure), and whether `fs.rm` fails. -/
structure Env where
  config : ToolchainConfig
  plat : Platform
  sourceContent : String
  tempDir : String
  oracle : ProcCall → Except String ProcResult
  rmFails : Bool

/-- The single process call made by `runPythonSample`:
`python <file>` with the sample on stdin, cwd = the file's directory. -/
def pythonCall (env : Env) (filePath sampleInput : String) : ProcCall :=
  ⟨env.config.pythonPath.getD "python", [filePath], sampleInput, dirname filePath⟩

/-- The match verdict both strategies compute:
`expectedOutput === undefined ? undefined : normalize(stdout) === normalize(expected)`. -/
def matchedVerdict (stdout : String) (expectedOutput : Option String) : Option Bool :=
  expectedOutput.map fun e => normalizeProgramOutput stdout == normalizeProgramOutput e

/-- `runPythonSample` (source lines 423-439). -/
def runPythonSample (env : Env) (filePath sampleInput : String)
    (expectedOutput : Option String) : List Event × Except String SampleResult :=
  let call := pythonCall env filePath sampleInput
  match env.oracle call with
  | Except.error e => ([Event.spawn call], Except.error e)
  | Except.ok r =>
    ([Event.spawn call],
     Except.ok ⟨r.stdout, r.stderr, r.exitCode, matchedVerdict r.stdout expectedOutput⟩)

/-- The generic fallback used when the compiler produced no diagnostics. -/
def unknownCompileErrorMsg : String := "未知的编译错误"

/-- The error message built on a non-zero compile exit (source line 453-454):
`(stderr || stdout || '').trim() || '未知的编译错误'` under the fixed prefix. -/
def compileErrorMessage (cr : ProcResult) : String :=
  let raw := if cr.stderr ≠ "" then cr.stderr else if cr.stdout ≠ "" then cr.stdout else ""
  let t := jsTrim raw
  "Java 编译失败：\n" ++ (if t = "" then unknownCompileErrorMsg else t)

/-- The compile process call of `runJavaSample`:
`javac -encoding UTF-8 -d <tempDir> <file>`, empty stdin, cwd = the
file's directory. -/
def javacCall (env : Env) (filePath : String) : ProcCall :=
  ⟨(getJavaExecutables env.config env.plat).2,
   ["-encoding", "UTF-8", "-d", env.tempDir, filePath], "", dirname filePath⟩

/-- `entryPoint.packageName ? package + '.' + mainClass : mainClass`
(an empty package string is falsy in JS). -/
def qualifiedClassName (ep : EntryPoint) : String :=
  match ep.packageName with
  | some p => if p = "" then ep.mainClass else p ++ "." ++ ep.mainClass
  | none => ep.mainClass

/-- The run process call of `runJavaSample`:
`java -cp <tempDir> <className>` with the sample on stdin, cwd = the
file's directory. -/
def javaRunCall (env : Env) (filePath sampleInput : String) (ep : EntryPoint) : ProcCall :=
  ⟨(getJavaExecutables env.config env.plat).1,
   ["-cp", env.tempDir, qualifiedClassName ep], sampleInput, dirname filePath⟩

/-- `runJavaSample` (source lines 441-476): detect the entry point, make
a temporary workspace, compile into it, on success run the class, and in
a `finally` step attempt to remove the workspace, swallowing removal
failures. -/
def runJavaSample (env : Env) (filePath sampleInput : String)
    (expectedOutput : Option String) : List Event × Except String SampleResult :=
  match detectJavaEntryPoint env.sourceContent with
  | Except.error e => ([Event.readFile filePath], Except.error e)
  | Except.ok ep =>
    let pre := [Event.readFile filePath, Event.mkdtemp env.tempDir]
    let rmEv := Event.rmAttempt env.tempDir (!env.rmFails)
    let cCall := javacCall env filePath
    match env.oracle cCall with
    | Except.error e => (pre ++ [Event.spawn cCall, rmEv], Except.error e)
    | Except.ok cr =>
      if cr.exitCode = some 0 then
        let rCall := javaRunCall env filePath sampleInput ep
        match env.oracle rCall with
        | Except.error e =>
          (pre ++ [Event.spawn cCall, Event.spawn rCall, rmEv], Except.error e)
        | Except.ok rr =>
          (pre ++ [Event.spawn cCall, Event.spawn rCall, rmEv],
           Except.ok ⟨rr.stdout, rr.stderr, rr.exitCode, matchedVerdict rr.stdout expectedOutput⟩)
      else
        (pre ++ [Event.spawn cCall, rmEv], Except.error (compileErrorMessage cr))

/-- Message for a language with no strategy. -/
def unsupportedLanguageMsg (language : String) : String :=
  "暂未支持 " ++ language ++ " 语言的快速测试"

/-- `runSampleTest` (source lines 407-421): the language dispatcher. -/
def runSampleTest (env : Env) (language filePath sampleInput : String)
    (expectedOutput : Option String) : List Event × Except String SampleResult :=
  if language = "python" then runPythonSample env filePath sampleInput expectedOutput
  else if language = "java" then runJavaSample env filePath sampleInput expectedOutput
  else ([], Except.error (unsupportedLanguageMsg language))

/-- Validation message: no file path given. -/
def noFilePathMsg : String := "请先指定代码文件路径"

/-- Validation message: no sample input given. -/
def noSampleInputMsg : String := "当前题目缺少样例输入"

/-- Validation message: the source file does not exist. -/
def fileMissingMsg : String := "代码文件不存在，请先创建或保存后再试"

/-- The `sampleTestResult` message posted back to the webview. -/
inductive PostedMessage where
  | success (language filePath : String) (problemId : Option Int)
      (stdout stderr : String) (exitCode : Option Int)
      (matched : Option Bool) (expectedOutput : Option String)
  | failure (language filePath : String) (problemId : Option Int) (message : String)
deriving DecidableEq, Repr

/-- `handleRunSampleTest` (source lines 327-374): validate the request,
delegate to `runSampleTest`, and post either an `ok: true` payload or an
`ok: false` payload carrying the thrown error's message.  `fileExists`
is the answer of the `vscode.workspace.fs.stat` probe. -/
def handleRunSampleTest (env : Env) (fileExists : Bool) (problemId : Option Int)
    (language filePath sampleInput : String) (expectedOutput : Option String) :
    List Event × PostedMessage :=
  if filePath = "" then
    ([], PostedMessage.failure language filePath problemId noFilePathMsg)
  else if sampleInput = "" then
    ([], PostedMessage.failure language filePath problemId noSampleInputMsg)
  else if !fileExists then
    ([], PostedMessage.failure language filePath problemId fileMissingMsg)
  else
    match runSampleTest env language filePath sampleInput expectedOutput with
    | (tr, Except.ok r) =>
      (tr, PostedMessage.success language filePath problemId
        r.stdout r.stderr r.exitCode r.matched expectedOutput)
    | (tr, Except.error e) => (tr, PostedMessage.failure language filePath problemId e)

/-- Whether the workspace directory `d` exists after the events `tr`:
created by `mkdtemp d`, destroyed by a successful `rmAttempt d`. -/
def wsStep (d : String) (b : Bool) : Event → Bool
  | Event.mkdtemp d' => if d' = d then true else b
  | Event.rmAttempt d' ok => if d' = d && ok then false else b
  | _ => b

/-- Fold `wsStep` over a trace, starting from a world where `d` does not
exist (`mkdtemp` mints a fresh name). -/
def wsExistsAfter (tr : List Event) (d : String) : Bool :=
  tr.foldl (wsStep d) false

/-- A world where every spawned process prints `5` and exits 0. -/
def envPy : Env :=
  ⟨⟨none, none, none⟩, ⟨false, none, none⟩, "", "/tmp/oj-w",
   fun _ => Except.ok ⟨"5\n", "", some 0⟩, false⟩

/-- A world with a well-formed Java source where every spawned process
prints `hello` and exits 0. -/
def envJv : Env :=
  ⟨⟨none, none, none⟩, ⟨false, none, none⟩,
   "public class Main public static void main(String[] args)", "/tmp/oj-w",
   fun _ => Except.ok ⟨"hello\n", "", some 0⟩, false⟩

/-- A world whose compiler exits 1 with whitespace-only stderr and the
diagnostic on stdout. -/
def envC3 : Env :=
  ⟨⟨none, none, none⟩, ⟨false, none, none⟩,
   "public class Main public static void main(String[] args)", "/tmp/oj-w",
   fun _ => Except.ok ⟨"boom", " ", some 1⟩, false⟩

/-- A world whose compiler exits 1 with a real diagnostic on stderr. -/
def envC3w : Env :=
  ⟨⟨none, none, none⟩, ⟨false, none, none⟩,
   "public class Main public static void main(String[] args)", "/tmp/oj-w",
   fun _ => Except.ok ⟨"", "boom!\n", some 1⟩, false⟩

/-- A world where everything succeeds but workspace removal fails. -/
def envC4 : Env :=
  ⟨⟨none, none, none⟩, ⟨false, none, none⟩,
   "public class Main public static void main(String[] args)", "/tmp/oj-w",
   fun _ => Except.ok ⟨"ok\n", "", some 0⟩, true⟩

/-- A world for the C4 witness: removal succeeds, compile fails. -/
def envC4w : Env :=
  ⟨⟨none, none, none⟩, ⟨false, none, none⟩,
   "public class Main public static void main(String[] args)", "/tmp/oj-w",
   fun _ => Except.ok ⟨"", "err\n", some 2⟩, false⟩

/-- A world for the C6 witness; its oracle is never consulted. -/
def envC6 : Env :=
  ⟨⟨none, none, none⟩, ⟨false, none, none⟩, "", "/tmp/oj-w",
   fun _ => Except.error "unused", false⟩

/-- A world for the C10 witness: compile and run both succeed. -/
def envC10 : Env :=
  ⟨⟨none, none, none⟩, ⟨false, none, none⟩,
   "public class Main public static void main(String[] args)", "/tmp/oj-w",
   fun _ => Except.ok ⟨"hi\n", "", some 0⟩, false⟩

/-- Modelled from the spec (refinement side of C8): "first non-empty
wins" over a candidate list, where `none` marks an absent candidate. -/
def specFirstNonEmpty : List (Option String) → String
  | [] => ""
  | none :: rest => specFirstNonEmpty rest
  | some s :: rest => if s = "" then specFirstNonEmpty rest else s

/-- Modelled from the spec (refinement side of C8): the candidate order
for one tool role — explicit configuration override (as supplied to the
resolver, i.e. trimmed), `<root>/bin/<tool><suffix>` for the two
installation-root variables in order, the bare name with the platform
suffix when applicable, the bare name. -/
def specToolCandidates (plat : Platform) (override : Option String)
    (tool : String) : List (Option String) :=
  let sfx := if plat.isWin32 then ".exe" else ""
  let sep := if plat.isWin32 then "\\" else "/"
  [override.map jsTrim,
   fromHome sep sfx plat.javaHome tool,
   fromHome sep sfx plat.jdkHome tool,
   if sfx ≠ "" then some (tool ++ sfx) else none,
   some tool]

/-- Modelled from the spec (refinement side of C8): resolve one tool role
by taking the first non-empty candidate. -/
def specResolve (plat : Platform) (override : Option String) (tool : String) : String :=
  specFirstNonEmpty (specToolCandidates plat override tool)

/-! ## Lemmas about normalization -/

lemma replaceCRLF_eq_self : ∀ l : List Char, '\r' ∉ l → replaceCRLF l = l
  | [], _ => rfl
  | [_], _ => rfl
  | c1 :: c2 :: rest, h => by
    have h1 : c1 ≠ '\r' := fun e => h (by simp [e])
    have h2 : '\r' ∉ c2 :: rest := fun m => h (List.mem_cons_of_mem _ m)
    have hr := replaceCRLF_eq_self (c2 :: rest) h2
    simp only [replaceCRLF]
    rw [if_neg (by simp [h1]), hr]

lemma replaceCR_no_cr (l : List Char) : '\r' ∉ replaceCR l := by
  intro hm
  rcases List.mem_map.mp hm with ⟨c, _, hc⟩
  by_cases h : c = '\r'
  · rw [if_pos h] at hc; exact absurd hc (by decide)
  · rw [if_neg h] at hc; exact h hc

lemma replaceCR_eq_self : ∀ l : List Char, '\r' ∉ l → replaceCR l = l
  | [], _ => rfl
  | c :: rest, h => by
    have hc : c ≠ '\r' := fun e => h (by simp [e])
    have hr := replaceCR_eq_self rest (fun m => h (List.mem_cons_of_mem _ m))
    simp only [replaceCR, List.map_cons] at hr ⊢
    rw [if_neg hc, hr]

lemma lineNorm_no_cr (l : List Char) : '\r' ∉ lineNorm l :=
  replaceCR_no_cr _

lemma lineNorm_eq_self (l : List Char) (h : '\r' ∉ l) : lineNorm l = l := by
  unfold lineNorm
  rw [replaceCRLF_eq_self l h, replaceCR_eq_self l h]

lemma trimEndL_subset (l : List Char) : ∀ c ∈ trimEndL l, c ∈ l := by
  intro c hc
  simp only [trimEndL, List.rdropWhile, List.mem_reverse] at hc
  exact List.mem_reverse.mp ((List.dropWhile_sublist _).subset hc)

lemma trimEndL_idem (l : List Char) : trimEndL (trimEndL l) = trimEndL l :=
  List.rdropWhile_idempotent isJsWs l

lemma rdropWhile_append_rtakeWhile (p : Char → Bool) (l : List Char) :
    l.rdropWhile p ++ l.rtakeWhile p = l := by
  simp only [List.rdropWhile, List.rtakeWhile]
  rw [← List.reverse_append, List.takeWhile_append_dropWhile, List.reverse_reverse]

lemma dropWhile_head_false (p : Char → Bool) :
    ∀ (l : List Char) (a : Char) (t : List Char), l.dropWhile p = a :: t → p a = false
  | [], a, t, h => by simp at h
  | c :: rest, a, t, h => by
    by_cases hc : p c
    · rw [List.dropWhile_cons, if_pos hc] at h
      exact dropWhile_head_false p rest a t h
    · rw [List.dropWhile_cons, if_neg hc] at h
      cases h
      simpa using hc

lemma trimEndL_getLastD (l : List Char) :
    isJsWs ((trimEndL l).getLastD 'x') = false := by
  rcases h : (l.reverse).dropWhile isJsWs with _ | ⟨a, t⟩
  · simp [trimEndL, List.rdropWhile, h]
    decide
  · have ha := dropWhile_head_false isJsWs l.reverse a t h
    simp [trimEndL, List.rdropWhile, h, List.getLastD_concat, ha]

/-! ## Claim theorems -/

/-- C2: `normalizeProgramOutput` first canonicalizes line endings (every
CRLF pair and every lone CR becomes LF: no CR survives `lineNorm`), then
strips whitespace only from the end: the normalized result is a prefix of
the line-canonicalized text whose removed part is all whitespace, and the
result itself ends in a non-whitespace character (so leading and interior
whitespace is preserved, and the strip is maximal).  Consequently
`"a\r\nb\r\n"`, `"a\nb\n"` and `"a\nb"` all normalize alike. -/
theorem C2_normalize_strips_only_trailing (s : String) :
    (∃ t : List Char, lineNorm s.data = (normalizeProgramOutput s).data ++ t
      ∧ ∀ c ∈ t, isJsWs c = true)
    ∧ isJsWs ((normalizeProgramOutput s).data.getLastD 'x') = false
    ∧ '\r' ∉ lineNorm s.data
    ∧ normalizeProgramOutput "a\r\nb\r\n" = normalizeProgramOutput "a\nb\n"
    ∧ normalizeProgramOutput "a\nb" = normalizeProgramOutput "a\nb\n" := by
  refine ⟨⟨(lineNorm s.data).rtakeWhile isJsWs, ?_, ?_⟩, ?_, lineNorm_no_cr _, by decide, by decide⟩
  · exact (rdropWhile_append_rtakeWhile isJsWs (lineNorm s.data)).symm
  · intro c hc
    exact List.mem_rtakeWhile_imp hc
  · exact trimEndL_getLastD (lineNorm s.data)

/-- Closed witness for `C2_normalize_strips_only_trailing` at the string
`"a b \r\n"`. -/
theorem C2_normalize_strips_only_trailing_witness :
    (∃ t : List Char,
      lineNorm ("a b \r\n" : String).data = (normalizeProgramOutput "a b \r\n").data ++ t
      ∧ ∀ c ∈ t, isJsWs c = true)
    ∧ isJsWs ((normalizeProgramOutput "a b \r\n").data.getLastD 'x') = false
    ∧ '\r' ∉ lineNorm ("a b \r\n" : String).data
    ∧ normalizeProgramOutput "a\r\nb\r\n" = normalizeProgramOutput "a\nb\n"
    ∧ normalizeProgramOutput "a\nb" = normalizeProgramOutput "a\nb\n" :=
  C2_normalize_strips_only_trailing "a b \r\n"

/-- C9: output normalization is idempotent:
`normalize(normalize(s)) = normalize(s)` for every string `s`. -/
theorem C9_normalize_idempotent (s : String) :
    normalizeProgramOutput (normalizeProgramOutput s) = normalizeProgramOutput s := by
  have hnc : '\r' ∉ trimEndL (lineNorm s.data) :=
    fun m => lineNorm_no_cr _ (trimEndL_subset _ _ m)
  show (⟨trimEndL (lineNorm (trimEndL (lineNorm s.data)))⟩ : String)
      = ⟨trimEndL (lineNorm s.data)⟩
  rw [lineNorm_eq_self _ hnc, trimEndL_idem]

lemma endsWithLF_append_lf (s : String) : endsWithLF (s ++ "\n") = true := by
  simp [endsWithLF, String.data_append]

/-- C7: the engine's stdin protocol.  For non-empty input the channel
receives exactly one write — the input itself when it already ends in a
newline, else the input with a newline appended — followed by a close;
for empty input the channel is closed immediately with no write. -/
theorem C7_stdin_protocol (s : String) (hs : s ≠ "") :
    ∃ w : String,
      runProcessStdinActions s = [StdinAction.write w, StdinAction.close]
      ∧ endsWithLF w = true
      ∧ (endsWithLF s = true → w = s)
      ∧ (endsWithLF s = false → w = s ++ "\n")
      ∧ runProcessStdinActions "" = [StdinAction.close] := by
  refine ⟨if endsWithLF s then s else s ++ "\n", ?_, ?_, ?_, ?_, rfl⟩
  · rw [runProcessStdinActions, if_neg hs]
  · by_cases h : endsWithLF s
    · rw [if_pos h]; exact h
    · rw [if_neg h]; exact endsWithLF_append_lf s
  · intro h; rw [if_pos h]
  · intro h; rw [if_neg (by simp [h])]

/-- Closed witness for `C7_stdin_protocol` at the input `"ab"`. -/
theorem C7_stdin_protocol_witness :
    ("ab" : String) ≠ ""
    ∧ ∃ w : String,
      runProcessStdinActions "ab" = [StdinAction.write w, StdinAction.close]
      ∧ endsWithLF w = true
      ∧ (endsWithLF "ab" = true → w = "ab")
      ∧ (endsWithLF "ab" = false → w = "ab" ++ "\n")
      ∧ runProcessStdinActions "" = [StdinAction.close] :=
  ⟨by decide, C7_stdin_protocol "ab" (by decide)⟩

/-- C1: whenever a strategy resolves with a result, its `matched` field is
`none` exactly when no expected output was supplied, and otherwise is the
strict equality of the normalized actual stdout and the normalized
expected output — for the interpreted and the compiled strategy alike. -/
theorem C1_matched_tristate (env : Env) (filePath sampleInput : String)
    (expectedOutput : Option String) (r : SampleResult) :
    ((runPythonSample env filePath sampleInput expectedOutput).2 = Except.ok r →
      r.matched = expectedOutput.map fun e =>
        normalizeProgramOutput r.stdout == normalizeProgramOutput e)
    ∧ ((runJavaSample env filePath sampleInput expectedOutput).2 = Except.ok r →
      r.matched = expectedOutput.map fun e =>
        normalizeProgramOutput r.stdout == normalizeProgramOutput e) := by
  constructor
  · intro h
    simp only [runPythonSample] at h
    rcases ho : env.oracle (pythonCall env filePath sampleInput) with e | pr <;>
      rw [ho] at h
    · simp at h
    · simp only [Except.ok.injEq] at h
      subst h
      rfl
  · intro h
    simp only [runJavaSample] at h
    split at h
    · simp at h
    · split at h
      · simp at h
      · split at h
        · split at h
          · simp at h
          · simp only [Except.ok.injEq] at h
            subst h
            rfl
        · simp at h

/-- Closed witness for `C1_matched_tristate`: both strategies, run in a
concrete world with an expectation supplied, resolve with `matched = true`. -/
theorem C1_matched_tristate_witness :
    ((runPythonSample envPy "/w/m.py" "5" (some "5")).2
        = Except.ok ⟨"5\n", "", some 0, some true⟩
      ∧ (⟨"5\n", "", some 0, some true⟩ : SampleResult).matched
          = (some "5").map fun e =>
              normalizeProgramOutput (⟨"5\n", "", some 0, some true⟩ : SampleResult).stdout
                == normalizeProgramOutput e)
    ∧ ((runJavaSample envJv "/w/Main.java" "1" (some "hello")).2
        = Except.ok ⟨"hello\n", "", some 0, some true⟩
      ∧ (⟨"hello\n", "", some 0, some true⟩ : SampleResult).matched
          = (some "hello").map fun e =>
              normalizeProgramOutput (⟨"hello\n", "", some 0, some true⟩ : SampleResult).stdout
                == normalizeProgramOutput e) :=
  ⟨⟨by rfl, (C1_matched_tristate envPy "/w/m.py" "5" (some "5") _).1 (by rfl)⟩,
   ⟨by rfl, (C1_matched_tristate envJv "/w/Main.java" "1" (some "hello") _).2 (by rfl)⟩⟩

/-- C5: when the public-class pattern does not match the source text, the
compiled strategy fails with the no-public-class message; when it matches
but the main-method pattern does not, it fails with the distinct
no-entry-method message; in both cases the whole trace is the single
source-file read — no process is spawned and no workspace is created. -/
theorem C5_entry_point_errors (env : Env) (filePath sampleInput : String)
    (expectedOutput : Option String) :
    (findPublicClass env.sourceContent.data = none →
      runJavaSample env filePath sampleInput expectedOutput
        = ([Event.readFile filePath], Except.error noPublicClassMsg))
    ∧ (∀ cls : List Char, findPublicClass env.sourceContent.data = some cls →
        hasMainMethod env.sourceContent.data = false →
        runJavaSample env filePath sampleInput expectedOutput
          = ([Event.readFile filePath], Except.error noMainMethodMsg))
    ∧ noPublicClassMsg ≠ noMainMethodMsg := by
  refine ⟨fun hnc => ?_, fun cls hcls hnm => ?_, by decide⟩
  · simp only [runJavaSample, detectJavaEntryPoint, hnc]
  · simp only [runJavaSample, detectJavaEntryPoint, hcls, hnm]
    rfl

/-- Closed witness for `C5_entry_point_errors`: a source with no
`public class` pattern hits the first error, and a source with a public
class but no entry method hits the second, each without spawning. -/
theorem C5_entry_point_errors_witness :
    (findPublicClass ("class Main" : String).data = none
      ∧ runJavaSample ⟨⟨none, none, none⟩, ⟨false, none, none⟩, "class Main",
          "/tmp/oj-w", fun _ => Except.error "unused", false⟩ "/w/Main.java" "1" none
        = ([Event.readFile "/w/Main.java"], Except.error noPublicClassMsg))
    ∧ (findPublicClass ("public class Main" : String).data = some "Main".data
      ∧ hasMainMethod ("public class Main" : String).data = false
      ∧ runJavaSample ⟨⟨none, none, none⟩, ⟨false, none, none⟩, "public class Main",
          "/tmp/oj-w", fun _ => Except.error "unused", false⟩ "/w/Main.java" "1" none
        = ([Event.readFile "/w/Main.java"], Except.error noMainMethodMsg)) :=
  ⟨⟨by rfl,
    (C5_entry_point_errors ⟨⟨none, none, none⟩, ⟨false, none, none⟩, "class Main",
      "/tmp/oj-w", fun _ => Except.error "unused", false⟩ "/w/Main.java" "1" none).1 (by rfl)⟩,
   ⟨by rfl, by rfl,
    (C5_entry_point_errors ⟨⟨none, none, none⟩, ⟨false, none, none⟩, "public class Main",
      "/tmp/oj-w", fun _ => Except.error "unused", false⟩ "/w/Main.java" "1" none).2.1
      "Main".data (by rfl) (by rfl)⟩⟩

lemma compileErrorMessage_eq (cr : ProcResult) :
    compileErrorMessage cr
      = "Java 编译失败：\n" ++
        (if jsTrim (if cr.stderr = "" then cr.stdout else cr.stderr) = ""
         then unknownCompileErrorMsg
         else jsTrim (if cr.stderr = "" then cr.stdout else cr.stderr)) := by
  by_cases h1 : cr.stderr = "" <;> by_cases h2 : cr.stdout = "" <;>
    simp [compileErrorMessage, h1, h2]

/-- C3 fails as stated: with compiler stderr `" "` (non-empty) and stdout
`"boom"`, the pipeline's error message is the prefixed generic
unknown-compile-error string — it is neither the compiler's standard-error
text nor its standard-output text. -/
theorem C3_counterexample :
    (runJavaSample envC3 "/w/Main.java" "1" none).2
      = Except.error ("Java 编译失败：\n" ++ unknownCompileErrorMsg)
    ∧ ("Java 编译失败：\n" ++ unknownCompileErrorMsg : String) ≠ " "
    ∧ ("Java 编译失败：\n" ++ unknownCompileErrorMsg : String) ≠ "boom" :=
  ⟨by rfl, by decide, by decide⟩

/-- C3 (amended): when the compile process exits non-zero the pipeline
fails with a message consisting of the fixed compile-failure prefix
followed by the trimmed stderr text, falling back to the trimmed stdout
text when stderr is empty, falling back to the generic
unknown-compile-error string when the selected text trims to empty; the
trace shows the compiler spawn is the only spawn — the run step is never
attempted — and the workspace removal still happens. -/
theorem C3_compile_failure_amended (env : Env) (filePath sampleInput : String)
    (expectedOutput : Option String) (ep : EntryPoint) (cr : ProcResult)
    (hep : detectJavaEntryPoint env.sourceContent = Except.ok ep)
    (hc : env.oracle (javacCall env filePath) = Except.ok cr)
    (hx : cr.exitCode ≠ some 0) :
    runJavaSample env filePath sampleInput expectedOutput
      = ([Event.readFile filePath, Event.mkdtemp env.tempDir,
          Event.spawn (javacCall env filePath),
          Event.rmAttempt env.tempDir (!env.rmFails)],
         Except.error ("Java 编译失败：\n" ++
           (if jsTrim (if cr.stderr = "" then cr.stdout else cr.stderr) = ""
            then unknownCompileErrorMsg
            else jsTrim (if cr.stderr = "" then cr.stdout else cr.stderr)))) := by
  simp only [runJavaSample]
  split
  next e heq => rw [hep] at heq; cases heq
  next ep2 heq =>
    rw [hep] at heq
    cases heq
    split
    next e heq2 => rw [hc] at heq2; cases heq2
    next cr2 heq2 =>
      rw [hc] at heq2
      cases heq2
      rw [if_neg hx, compileErrorMessage_eq]
      rfl

/-- Closed witness for `C3_compile_failure_amended` in the world `envC3w`. -/
theorem C3_compile_failure_amended_witness :
    detectJavaEntryPoint envC3w.sourceContent = Except.ok ⟨"Main", none⟩
    ∧ envC3w.oracle (javacCall envC3w "/w/Main.java") = Except.ok ⟨"", "boom!\n", some 1⟩
    ∧ (⟨"", "boom!\n", some 1⟩ : ProcResult).exitCode ≠ some 0
    ∧ runJavaSample envC3w "/w/Main.java" "1" none
      = ([Event.readFile "/w/Main.java", Event.mkdtemp "/tmp/oj-w",
          Event.spawn (javacCall envC3w "/w/Main.java"),
          Event.rmAttempt "/tmp/oj-w" true],
         Except.error "Java 编译失败：\nboom!") :=
  ⟨by rfl, by rfl, by decide,
   C3_compile_failure_amended envC3w "/w/Main.java" "1" none ⟨"Main", none⟩
     ⟨"", "boom!\n", some 1⟩ (by rfl) (by rfl) (by decide)⟩

lemma runJavaSample_rmFails (env : Env) (b : Bool) (filePath sampleInput : String)
    (expectedOutput : Option String) :
    (runJavaSample { env with rmFails := b } filePath sampleInput expectedOutput).2
      = (runJavaSample env filePath sampleInput expectedOutput).2 := by
  simp only [runJavaSample, javacCall, javaRunCall]
  cases detectJavaEntryPoint env.sourceContent with
  | error e => rfl
  | ok ep =>
    cases env.oracle ⟨(getJavaExecutables env.config env.plat).2,
        ["-encoding", "UTF-8", "-d", env.tempDir, filePath], "", dirname filePath⟩ with
    | error e => rfl
    | ok cr =>
      by_cases hx : cr.exitCode = some 0
      · simp only [if_pos hx]
        cases env.oracle ⟨(getJavaExecutables env.config env.plat).1,
            ["-cp", env.tempDir, qualifiedClassName ep], sampleInput, dirname filePath⟩ <;> rfl
      · simp only [if_neg hx]

/-- C4 fails as stated: when the removal step itself fails, the removal
failure is swallowed — the call still returns the run's real result — but
the workspace directory does still exist when the call returns. -/
theorem C4_counterexample :
    wsExistsAfter (runJavaSample envC4 "/w/Main.java" "1" none).1 envC4.tempDir = true
    ∧ (runJavaSample envC4 "/w/Main.java" "1" none).2
        = Except.ok ⟨"ok\n", "", some 0, none⟩ :=
  ⟨by rfl, by rfl⟩

/-- C4 (amended): on every invocation that reaches workspace creation,
workspace removal is attempted as the final step no matter which prior
step failed; when the removal succeeds the workspace no longer exists on
return; and a removal failure never changes the call's result or error. -/
theorem C4_workspace_cleanup_amended (env : Env) (filePath sampleInput : String)
    (expectedOutput : Option String) (ep : EntryPoint)
    (hep : detectJavaEntryPoint env.sourceContent = Except.ok ep) :
    ((runJavaSample env filePath sampleInput expectedOutput).1.getLast?
        = some (Event.rmAttempt env.tempDir (!env.rmFails)))
    ∧ (env.rmFails = false →
        wsExistsAfter (runJavaSample env filePath sampleInput expectedOutput).1
          env.tempDir = false)
    ∧ (∀ b : Bool,
        (runJavaSample { env with rmFails := b } filePath sampleInput expectedOutput).2
          = (runJavaSample env filePath sampleInput expectedOutput).2) := by
  refine ⟨?_, ?_, fun b => runJavaSample_rmFails env b filePath sampleInput expectedOutput⟩
  · simp only [runJavaSample]
    split
    next e heq => rw [hep] at heq; cases heq
    next ep2 heq =>
      rw [hep] at heq; cases heq
      split
      · rfl
      · split
        · split <;> rfl
        · rfl
  · intro hrm
    simp only [runJavaSample]
    split
    next e heq => rw [hep] at heq; cases heq
    next ep2 heq =>
      rw [hep] at heq; cases heq
      split
      · simp [wsExistsAfter, wsStep, hrm]
      · split
        · split <;> simp [wsExistsAfter, wsStep, hrm]
        · simp [wsExistsAfter, wsStep, hrm]

/-- Closed witness for `C4_workspace_cleanup_amended` in `envC4w`. -/
theorem C4_workspace_cleanup_amended_witness :
    detectJavaEntryPoint envC4w.sourceContent = Except.ok ⟨"Main", none⟩
    ∧ ((runJavaSample envC4w "/w/Main.java" "1" none).1.getLast?
        = some (Event.rmAttempt envC4w.tempDir (!envC4w.rmFails)))
    ∧ (envC4w.rmFails = false →
        wsExistsAfter (runJavaSample envC4w "/w/Main.java" "1" none).1
          envC4w.tempDir = false)
    ∧ (∀ b : Bool,
        (runJavaSample { envC4w with rmFails := b } "/w/Main.java" "1" none).2
          = (runJavaSample envC4w "/w/Main.java" "1" none).2) :=
  ⟨by rfl,
   C4_workspace_cleanup_amended envC4w "/w/Main.java" "1" none ⟨"Main", none⟩ (by rfl)⟩

/-- C6: an empty file path, an empty sample input, or a missing source
file each make `handleRunSampleTest` post the corresponding validation
failure with an empty effect trace — no process is spawned, no strategy
is entered. -/
theorem C6_validation_before_spawn (env : Env) (ex : Bool) (pid : Option Int)
    (language filePath sampleInput : String) (expectedOutput : Option String) :
    (filePath = "" →
      handleRunSampleTest env ex pid language filePath sampleInput expectedOutput
        = ([], PostedMessage.failure language filePath pid noFilePathMsg))
    ∧ (filePath ≠ "" → sampleInput = "" →
      handleRunSampleTest env ex pid language filePath sampleInput expectedOutput
        = ([], PostedMessage.failure language filePath pid noSampleInputMsg))
    ∧ (filePath ≠ "" → sampleInput ≠ "" → ex = false →
      handleRunSampleTest env ex pid language filePath sampleInput expectedOutput
        = ([], PostedMessage.failure language filePath pid fileMissingMsg)) := by
  refine ⟨fun h1 => ?_, fun h1 h2 => ?_, fun h1 h2 h3 => ?_⟩
  · simp [handleRunSampleTest, h1]
  · simp [handleRunSampleTest, h1, h2]
  · simp [handleRunSampleTest, h1, h2, h3]

/-- Closed witness for `C6_validation_before_spawn`: all three validation
rejections at concrete inputs. -/
theorem C6_validation_before_spawn_witness :
    (("" : String) = ""
      ∧ handleRunSampleTest envC6 true (some 7) "python" "" "1" none
        = ([], PostedMessage.failure "python" "" (some 7) noFilePathMsg))
    ∧ (("/w/m.py" : String) ≠ "" ∧ ("" : String) = ""
      ∧ handleRunSampleTest envC6 true (some 7) "python" "/w/m.py" "" none
        = ([], PostedMessage.failure "python" "/w/m.py" (some 7) noSampleInputMsg))
    ∧ (("/w/m.py" : String) ≠ "" ∧ ("1" : String) ≠ "" ∧ false = false
      ∧ handleRunSampleTest envC6 false (some 7) "python" "/w/m.py" "1" none
        = ([], PostedMessage.failure "python" "/w/m.py" (some 7) fileMissingMsg)) :=
  ⟨⟨rfl, (C6_validation_before_spawn envC6 true (some 7) "python" "" "1" none).1 rfl⟩,
   ⟨by decide, rfl,
    (C6_validation_before_spawn envC6 true (some 7) "python" "/w/m.py" "" none).2.1
      (by decide) rfl⟩,
   ⟨by decide, by decide, rfl,
    (C6_validation_before_spawn envC6 false (some 7) "python" "/w/m.py" "1" none).2.2
      (by decide) (by decide) rfl⟩⟩

/-- C10: when the compiled strategy reaches the run step, the runtime
process it spawns runs with working directory equal to the source file's
containing directory — not the temporary workspace — and the workspace
reaches the runtime only as the classpath argument. -/
theorem C10_run_cwd (env : Env) (filePath sampleInput : String)
    (expectedOutput : Option String) (ep : EntryPoint) (cr : ProcResult)
    (hep : detectJavaEntryPoint env.sourceContent = Except.ok ep)
    (hc : env.oracle (javacCall env filePath) = Except.ok cr)
    (hx : cr.exitCode = some 0)
    (hd : dirname filePath ≠ env.tempDir) :
    Event.spawn (javaRunCall env filePath sampleInput ep)
        ∈ (runJavaSample env filePath sampleInput expectedOutput).1
    ∧ (javaRunCall env filePath sampleInput ep).cwd = dirname filePath
    ∧ (javaRunCall env filePath sampleInput ep).cwd ≠ env.tempDir
    ∧ (javaRunCall env filePath sampleInput ep).args
        = ["-cp", env.tempDir, qualifiedClassName ep] := by
  refine ⟨?_, rfl, hd, rfl⟩
  simp only [runJavaSample]
  split
  next e heq => rw [hep] at heq; cases heq
  next ep2 heq =>
    rw [hep] at heq; cases heq
    split
    next e heq2 => rw [hc] at heq2; cases heq2
    next cr2 heq2 =>
      rw [hc] at heq2; cases heq2
      rw [if_pos hx]
      split <;> simp

/-- Closed witness for `C10_run_cwd` in `envC10`. -/
theorem C10_run_cwd_witness :
    detectJavaEntryPoint envC10.sourceContent = Except.ok ⟨"Main", none⟩
    ∧ envC10.oracle (javacCall envC10 "/w/Main.java") = Except.ok ⟨"hi\n", "", some 0⟩
    ∧ (⟨"hi\n", "", some 0⟩ : ProcResult).exitCode = some 0
    ∧ dirname "/w/Main.java" ≠ envC10.tempDir
    ∧ (Event.spawn (javaRunCall envC10 "/w/Main.java" "1" ⟨"Main", none⟩)
        ∈ (runJavaSample envC10 "/w/Main.java" "1" none).1
      ∧ (javaRunCall envC10 "/w/Main.java" "1" ⟨"Main", none⟩).cwd = dirname "/w/Main.java"
      ∧ (javaRunCall envC10 "/w/Main.java" "1" ⟨"Main", none⟩).cwd ≠ envC10.tempDir
      ∧ (javaRunCall envC10 "/w/Main.java" "1" ⟨"Main", none⟩).args
          = ["-cp", envC10.tempDir, qualifiedClassName ⟨"Main", none⟩]) :=
  ⟨by rfl, by rfl, by decide, by decide,
   C10_run_cwd envC10 "/w/Main.java" "1" none ⟨"Main", none⟩ ⟨"hi\n", "", some 0⟩
     (by rfl) (by rfl) (by decide) (by decide)⟩

/-! ## Lemmas about the toolchain resolver -/

lemma jsTrim_ne_empty (s : String) (c : Char) (hc : c ∈ s.data)
    (hw : isJsWs c = false) : jsTrim s ≠ "" := by
  intro h
  have hempty : (s.data.dropWhile isJsWs).rdropWhile isJsWs = [] := congrArg String.data h
  have h1 := List.rdropWhile_eq_nil_iff.mp hempty
  rw [← List.takeWhile_append_dropWhile (p := isJsWs) (l := s.data)] at hc
  rcases List.mem_append.mp hc with h2 | h2
  · exact absurd (List.mem_takeWhile_imp h2) (by simp [hw])
  · exact absurd (h1 c h2) (by simp [hw])

lemma dropWhile_rdropWhile_dropWhile (p : Char → Bool) (l : List Char) :
    List.dropWhile p ((List.dropWhile p l).rdropWhile p)
      = (List.dropWhile p l).rdropWhile p := by
  rcases hm : List.dropWhile p l with _ | ⟨a, t⟩
  · simp
  · have ha : p a = false := dropWhile_head_false p l a t hm
    rcases hr : (a :: t).rdropWhile p with _ | ⟨b, u⟩
    · simp
    · have happ : (a :: t).rdropWhile p ++ (a :: t).rtakeWhile p = a :: t :=
        rdropWhile_append_rtakeWhile p (a :: t)
      rw [hr] at happ
      have hb : b = a := by
        have := congrArg List.head? happ
        simpa using this
      rw [List.dropWhile_cons, hb, if_neg (by simp [ha])]

lemma jsTrim_idem (s : String) : jsTrim (jsTrim s) = jsTrim s := by
  show (⟨(((s.data.dropWhile isJsWs).rdropWhile isJsWs).dropWhile
      isJsWs).rdropWhile isJsWs⟩ : String) = ⟨(s.data.dropWhile isJsWs).rdropWhile isJsWs⟩
  rw [dropWhile_rdropWhile_dropWhile, List.rdropWhile_idempotent]

lemma jsTrim_pathJoinBin_ne (sep h n : String) : jsTrim (pathJoinBin sep h n) ≠ "" := by
  apply jsTrim_ne_empty _ 'b' ?_ (by decide)
  show 'b' ∈ (h ++ sep ++ "bin" ++ sep ++ n).data
  have h1 : 'b' ∈ "bin".data := by decide
  have h2 : 'b' ∈ (h ++ sep ++ "bin").data := by
    rw [String.data_append]
    exact List.mem_append_right _ h1
  rw [String.data_append, String.data_append]
  exact List.mem_append_left _ (List.mem_append_left _ h2)

lemma pickFirst_eq_specFirstNonEmpty :
    ∀ l : List (Option String),
      (∀ s : String, some s ∈ l → s ≠ "" → jsTrim s ≠ "") →
      pickFirst l = specFirstNonEmpty l
  | [], _ => rfl
  | none :: rest, h => by
    simp only [pickFirst, specFirstNonEmpty]
    exact pickFirst_eq_specFirstNonEmpty rest fun s hs => h s (List.mem_cons_of_mem _ hs)
  | some s :: rest, h => by
    simp only [pickFirst, specFirstNonEmpty]
    by_cases he : s = ""
    · rw [if_pos he, if_pos he]
      exact pickFirst_eq_specFirstNonEmpty rest fun x hx => h x (List.mem_cons_of_mem _ hx)
    · rw [if_neg he, if_neg (h s (List.mem_cons_self _ _) he), if_neg he]

lemma specFirstNonEmpty_ne_of_mem :
    ∀ (l : List (Option String)) (t : String), some t ∈ l → t ≠ "" →
      specFirstNonEmpty l ≠ ""
  | [], t, h, _ => by simp at h
  | none :: rest, t, h, ht => by
    simp only [specFirstNonEmpty]
    rcases List.mem_cons.mp h with h1 | h1
    · cases h1
    · exact specFirstNonEmpty_ne_of_mem rest t h1 ht
  | some s :: rest, t, h, ht => by
    simp only [specFirstNonEmpty]
    by_cases he : s = ""
    · rw [if_pos he]
      rcases List.mem_cons.mp h with h1 | h1
      · injection h1 with h1
        exact absurd (h1 ▸ he) ht
      · exact specFirstNonEmpty_ne_of_mem rest t h1 ht
    · rw [if_neg he]
      exact he

/-- C8: for each toolchain role the resolver returns exactly the first
non-empty candidate in the order: configuration override, then
`<root>/bin/<tool><suffix>` for the two installation-root variables in
order, then the bare name with the platform suffix when applicable, then
the bare name — and it never fails: both returned strings are non-empty
for every configuration and environment. -/
theorem C8_toolchain_resolution (cfg : ToolchainConfig) (plat : Platform) :
    getJavaExecutables cfg plat
      = (specResolve plat cfg.javaPath "java", specResolve plat cfg.javacPath "javac")
    ∧ (getJavaExecutables cfg plat).1 ≠ ""
    ∧ (getJavaExecutables cfg plat).2 ≠ "" := by
  have hwell : ∀ (override : Option String) (tool : String),
      jsTrim tool ≠ "" → jsTrim (tool ++ ".exe") ≠ "" →
      ∀ s : String, some s ∈ specToolCandidates plat override tool → s ≠ "" →
        jsTrim s ≠ "" := by
    intro override tool ht1 ht2 s hs hne
    simp only [specToolCandidates, List.mem_cons, List.not_mem_nil, or_false] at hs
    rcases hs with h | h | h | h | h
    · rcases override with _ | o
      · simp at h
      · simp only [Option.map_some'] at h
        injection h with h
        rw [h, jsTrim_idem]
        rw [h] at hne
        exact hne
    · rcases hjh : plat.javaHome with _ | hh
      · rw [hjh] at h; simp [fromHome] at h
      · rw [hjh] at h
        by_cases hhe : hh = ""
        · simp [fromHome, hhe] at h
        · simp only [fromHome, if_neg hhe] at h
          injection h with h
          rw [h]
          exact jsTrim_pathJoinBin_ne _ _ _
    · rcases hjh : plat.jdkHome with _ | hh
      · rw [hjh] at h; simp [fromHome] at h
      · rw [hjh] at h
        by_cases hhe : hh = ""
        · simp [fromHome, hhe] at h
        · simp only [fromHome, if_neg hhe] at h
          injection h with h
          rw [h]
          exact jsTrim_pathJoinBin_ne _ _ _
    · by_cases hw : plat.isWin32
      · simp only [hw, if_true, if_pos] at h
        · injection h with h
          rw [h]
          exact ht2
      · simp [hw] at h
    · injection h with h
      rw [h]
      exact ht1
  have e1 : pickFirst (specToolCandidates plat cfg.javaPath "java")
      = specResolve plat cfg.javaPath "java" := by
    rw [specResolve]
    exact pickFirst_eq_specFirstNonEmpty _ (hwell cfg.javaPath "java" (by decide) (by decide))
  have e2 : pickFirst (specToolCandidates plat cfg.javacPath "javac")
      = specResolve plat cfg.javacPath "javac" := by
    rw [specResolve]
    exact pickFirst_eq_specFirstNonEmpty _ (hwell cfg.javacPath "javac" (by decide) (by decide))
  have n1 : specResolve plat cfg.javaPath "java" ≠ "" := by
    apply specFirstNonEmpty_ne_of_mem _ "java" ?_ (by decide)
    simp [specToolCandidates]
  have n2 : specResolve plat cfg.javacPath "javac" ≠ "" := by
    apply specFirstNonEmpty_ne_of_mem _ "javac" ?_ (by decide)
    simp [specToolCandidates]
  have hg1 : getJavaExecutables cfg plat
      = (if pickFirst (specToolCandidates plat cfg.javaPath "java") = "" then "java"
         else pickFirst (specToolCandidates plat cfg.javaPath "java"),
         if pickFirst (specToolCandidates plat cfg.javacPath "javac") = "" then "javac"
         else pickFirst (specToolCandidates plat cfg.javacPath "javac")) := rfl
  have hmain : getJavaExecutables cfg plat
      = (specResolve plat cfg.javaPath "java", specResolve plat cfg.javacPath "javac") := by
    rw [hg1, e1, e2, if_neg n1, if_neg n2]
  refine ⟨hmain, ?_, ?_⟩
  · rw [hmain]; exact n1
  · rw [hmain]; exact n2

end OJ
